import Mathlib

/-!
Shallow embedding of the mine-detection-system repository (Go), restricted to
the parts the verified claims are about:

* the `fusion` package (`Detector`, `FuseAndDetect`, `createSpatialGrid`,
  `performKalmanFiltering`, `applyBayesianNetwork`, `detectSuspiciousRegions`,
  `combineProbabilities`, `parseGridKey`, helper stubs);
* `SensorFusionService` (`ProcessSensorData`, `FuseAndDetect`) and
  `GeospatialService.SaveRawScanData` from `internal/application`;
* the WebSocket binary-frame decoder (`handleBinaryMessage`, `extractScanID`,
  `extractMetadata`) from `internal/ports/ws/sensor_handler.go`;
* the HTTP aggregation handlers (`GetSpatialHeatmap`, `GetTemporalAnalysis`)
  from `internal/ports/api/geospatial_handler.go`.

Modelling conventions: Go `float64` becomes `ℚ` (the program only compares and
averages small decimal constants, so exact rationals carry the semantics of
every comparison in the claims); Go `interface{}` values become the inductive
`Val`, with `Val.null` standing for the nil interface; Go maps of strings
become association lists (each construction site inserts every key at most
once, so `List.lookup` has exactly the Go map-read semantics); UUIDs become
`Nat` identifiers, and freshly generated UUIDs (`uuid.New()`) are omitted from
the records, so two inserts of the same content are equal values; byte slices
become `List Nat`; Go runtime panics (index out of range) are represented by an
explicit outcome constructor.
-/

/-- Model of a Go `interface{}` value as it flows through the fusion pipeline.
`Val.null` is the nil interface; `obj` models `map[string]interface{}`,
`list` models a slice, and `num`/`int`/`str`/`bool` model `float64`, `int`,
`string` and `bool` respectively (distinct constructors, so Go type assertions
`.(float64)`, `.(int)`, `.(string)` are modelled by constructor matching). -/
inductive Val where
  | null : Val
  | bool (b : Bool) : Val
  | num (q : ℚ) : Val
  | int (n : ℤ) : Val
  | str (s : String) : Val
  | obj (fields : List (String × Val)) : Val
  | list (elems : List Val) : Val

/-- Detection represents the result of a mine detection (fusion package,
struct `Detection`). -/
structure Detection where
  latitude : ℚ
  longitude : ℚ
  depth : ℚ
  objectType : String
  confidence : ℚ
  dangerLevel : ℤ

/-- Detector carries the detector settings (fusion package, struct
`Detector`). -/
structure Detector where
  confidenceThreshold : ℚ

/-- NewDetector creates a detector with the default confidence threshold 0.7
(fusion package, `NewDetector`). -/
def NewDetector : Detector :=
  { confidenceThreshold := 7/10 }

/-- Structural model of Go's `strings.Split` restricted to the
single-character separators the repository uses (`:` in `parseGridKey`, `.`
inside number parsing): every occurrence of the separator opens a new group,
empty groups included, and the empty input yields one empty group. -/
def splitChar (sep : Char) : List Char → List (List Char)
  | [] => [[]]
  | c :: cs =>
    match splitChar sep cs with
    | [] => [[c]]
    | h :: t => if c = sep then [] :: h :: t else (c :: h) :: t

/-- splitString applies `splitChar` to a string's characters (model of
`strings.Split` with a one-character separator). -/
def splitString (s : String) (sep : Char) : List String :=
  (splitChar sep s.data).map String.mk

/-- Model of the decimal subset of Go's `strconv.ParseFloat`: an optional
sign, a digit run, and an optional fractional digit run. Strings outside this
subset (which the repository never feeds to `ParseFloat` expecting success)
are parse failures, returning `none`; the Go callers ignore the error and use
the accompanying zero value, modelled by `Option.getD 0` at the call sites. -/
def parseFloat (s : String) : Option ℚ :=
  let signBody : ℚ × List Char :=
    match s.data with
    | '-' :: rest => (-1, rest)
    | '+' :: rest => (1, rest)
    | cs => (1, cs)
  let digitsOk (l : List Char) : Bool := !l.isEmpty && l.all Char.isDigit
  let digitsVal (l : List Char) : ℕ := l.foldl (fun n c => 10 * n + (c.toNat - 48)) 0
  match splitChar '.' signBody.2 with
  | [ip] =>
      if digitsOk ip then some (signBody.1 * (digitsVal ip : ℚ)) else none
  | [ip, fp] =>
      if digitsOk ip && digitsOk fp then
        some (signBody.1 * ((digitsVal ip : ℚ) + (digitsVal fp : ℚ) / 10 ^ fp.length))
      else none
  | _ => none

/-- parseGridKey splits a grid key on the colon into coordinates; a key that
does not split into exactly two parts yields (0, 0), and a part that fails to
parse contributes 0 (the Go code ignores the `ParseFloat` error and keeps the
zero value) (fusion package, `parseGridKey`). -/
def parseGridKey (key : String) : ℚ × ℚ :=
  match splitString key ':' with
  | [p, q] => ((parseFloat p).getD 0, (parseFloat q).getD 0)
  | _ => (0, 0)

/-- filterLidarData is the identity passthrough stub (fusion package). -/
def filterLidarData (data : Val) : Val := data

/-- filterMagneticData is the identity passthrough stub (fusion package). -/
def filterMagneticData (data : Val) : Val := data

/-- filterAcousticData is the identity passthrough stub (fusion package). -/
def filterAcousticData (data : Val) : Val := data

/-- fuseLidarAndMagnetic returns a map holding both inputs unchanged (fusion
package, `fuseLidarAndMagnetic`). -/
def fuseLidarAndMagnetic (lidarData magneticData : Val) : Val :=
  .obj [("lidar", lidarData), ("magnetic", magneticData)]

/-- calculateMineProbability returns the constant 0.75 (fusion package). -/
def calculateMineProbability (_ : Val) : ℚ := 3/4

/-- calculateLidarMineProbability returns the constant 0.6 (fusion package). -/
def calculateLidarMineProbability (_ : Val) : ℚ := 3/5

/-- calculateMagneticMineProbability returns the constant 0.7 (fusion
package). -/
def calculateMagneticMineProbability (_ : Val) : ℚ := 7/10

/-- calculateAcousticMineProbability returns the constant 0.8 (fusion
package). -/
def calculateAcousticMineProbability (_ : Val) : ℚ := 4/5

/-- combineProbabilities sums the strictly positive probabilities and divides
by their count, returning 0 when none is positive (fusion package,
`combineProbabilities`). -/
def combineProbabilities (probs : List ℚ) : ℚ :=
  let pos := probs.filter (fun p => decide (0 < p))
  if pos.length = 0 then 0 else pos.sum / (pos.length : ℚ)

/-- determineObjectType returns the constant object label (fusion package). -/
def determineObjectType (_ : List (String × Val)) : String := "anti_personnel_mine"

/-- determineDangerLevel returns the constant danger level 4 (fusion
package). -/
def determineDangerLevel (_ : List (String × Val)) : ℤ := 4

/-- createSpatialGrid builds the spatial grid: a single key `sample_point`
mapping to a point holding the three sensor inputs under the keys `lidar`,
`magnetic`, `acoustic` (fusion package, `Detector.createSpatialGrid`). -/
def createSpatialGrid (lidarData magneticData acousticData : Val) :
    List (String × List (String × Val)) :=
  [("sample_point",
    [("lidar", lidarData), ("magnetic", magneticData), ("acoustic", acousticData)])]

/-- performKalmanPoint is the per-point body of `performKalmanFiltering`:
each sensor key present in the grid point yields a `*_filtered` entry via the
identity filter, and when both `lidar_filtered` and `magnetic_filtered` are
present a `fused_lidar_magnetic` entry is added (fusion package,
`Detector.performKalmanFiltering`, loop body). -/
def performKalmanPoint (gridPoint : List (String × Val)) : List (String × Val) :=
  let fp1 : List (String × Val) :=
    match List.lookup "lidar" gridPoint with
    | some d => [("lidar_filtered", filterLidarData d)]
    | none => []
  let fp2 : List (String × Val) :=
    match List.lookup "magnetic" gridPoint with
    | some d => fp1 ++ [("magnetic_filtered", filterMagneticData d)]
    | none => fp1
  let fp3 : List (String × Val) :=
    match List.lookup "acoustic" gridPoint with
    | some d => fp2 ++ [("acoustic_filtered", filterAcousticData d)]
    | none => fp2
  match List.lookup "lidar_filtered" fp3, List.lookup "magnetic_filtered" fp3 with
  | some l, some m => fp3 ++ [("fused_lidar_magnetic", fuseLidarAndMagnetic l m)]
  | _, _ => fp3

/-- performKalmanFiltering maps the per-point filtering over the grid (fusion
package, `Detector.performKalmanFiltering`). -/
def performKalmanFiltering (grid : List (String × List (String × Val))) :
    List (String × List (String × Val)) :=
  grid.map (fun p => (p.1, performKalmanPoint p.2))

/-- mineProbabilityOf is the probability computation inside
`applyBayesianNetwork`: the fused constant when `fused_lidar_magnetic` is
present, otherwise the combination of the per-sensor probabilities (0 for an
absent sensor) (fusion package, `Detector.applyBayesianNetwork`). -/
def mineProbabilityOf (gridPoint : List (String × Val)) : ℚ :=
  match List.lookup "fused_lidar_magnetic" gridPoint with
  | some fusedData => calculateMineProbability fusedData
  | none =>
    let lidarProb : ℚ :=
      match List.lookup "lidar_filtered" gridPoint with
      | some d => calculateLidarMineProbability d
      | none => 0
    let magneticProb : ℚ :=
      match List.lookup "magnetic_filtered" gridPoint with
      | some d => calculateMagneticMineProbability d
      | none => 0
    let acousticProb : ℚ :=
      match List.lookup "acoustic_filtered" gridPoint with
      | some d => calculateAcousticMineProbability d
      | none => 0
    combineProbabilities [lidarProb, magneticProb, acousticProb]

/-- applyBayesianPoint is the per-point body of `applyBayesianNetwork`: it
records the mine probability and, only when it strictly exceeds 0.8, the
object type and danger level (fusion package,
`Detector.applyBayesianNetwork`, loop body). -/
def applyBayesianPoint (gridPoint : List (String × Val)) : List (String × Val) :=
  let mineProb := mineProbabilityOf gridPoint
  let classification : List (String × Val) := [("mine_probability", .num mineProb)]
  if 4/5 < mineProb then
    classification ++
      [("object_type", .str (determineObjectType gridPoint)),
        ("danger_level", .int (determineDangerLevel gridPoint))]
  else classification

/-- applyBayesianNetwork maps the per-point classification over the grid
(fusion package, `Detector.applyBayesianNetwork`). -/
def applyBayesianNetwork (grid : List (String × List (String × Val))) :
    List (String × List (String × Val)) :=
  grid.map (fun p => (p.1, applyBayesianPoint p.2))

/-- detectSuspiciousRegions emits one Detection for each cell whose
`mine_probability` entry is a float and is at or above the detector's
confidence threshold; object type, danger level and depth fall back to
`unknown`, 3 and 0.15 when not set with the expected type (fusion package,
`Detector.detectSuspiciousRegions`). -/
def detectSuspiciousRegions (d : Detector)
    (grid : List (String × List (String × Val))) : List Detection :=
  grid.filterMap (fun p =>
    match List.lookup "mine_probability" p.2 with
    | some (Val.num mineProb) =>
      if d.confidenceThreshold ≤ mineProb then
        some
          { latitude := (parseGridKey p.1).1
            longitude := (parseGridKey p.1).2
            confidence := mineProb
            objectType :=
              match List.lookup "object_type" p.2 with
              | some (Val.str s) => s
              | _ => "unknown"
            dangerLevel :=
              match List.lookup "danger_level" p.2 with
              | some (Val.int n) => n
              | _ => 3
            depth :=
              match List.lookup "depth" p.2 with
              | some (Val.num q) => q
              | _ => 3/20 }
      else none
    | _ => none)

/-- Detector.FuseAndDetect rejects the call when all three interface inputs
are nil, and otherwise runs grid construction, filtering, classification and
region detection (fusion package, `Detector.FuseAndDetect`). -/
def Detector.FuseAndDetect (d : Detector)
    (lidarData magneticData acousticData : Val) : Except String (List Detection) :=
  match lidarData, magneticData, acousticData with
  | .null, .null, .null => .error "no sensor data provided"
  | l, m, a =>
      .ok (detectSuspiciousRegions d
        (applyBayesianNetwork (performKalmanFiltering (createSpatialGrid l m a))))

/-- Scan status enumeration (internal/domain, `ScanStatus`). -/
inductive ScanStatus where
  | inProgress : ScanStatus
  | completed : ScanStatus
  | failed : ScanStatus
deriving DecidableEq

/-- Verification status of a detected object (internal/domain,
`VerificationStatus`). -/
inductive VerificationStatus where
  | unverified : VerificationStatus
  | confirmed : VerificationStatus
  | dismissed : VerificationStatus
deriving DecidableEq

/-- A stored sensor reading (internal/domain, `SensorData`); the generated
UUID and timestamp are omitted (no claim depends on them). -/
structure SensorDataRec where
  scanId : ℕ
  sensorType : String
  latitude : ℚ
  longitude : ℚ
  altitude : ℚ
  data : Val
  qualityIndicators : Val

/-- A persisted detection (internal/domain, `DetectedObject`); the generated
UUID is omitted, so two inserts of the same content are equal values. -/
structure DetectedObject where
  scanId : ℕ
  latitude : ℚ
  longitude : ℚ
  depth : ℚ
  objectType : String
  confidence : ℚ
  dangerLevel : ℤ
  verificationStatus : VerificationStatus

/-- The persistent state the application services read and write: the scan
store (id to status), the reading store, the detection store and the raw-blob
store, each modelled as the list of stored rows in insertion order. -/
structure ServiceState where
  scans : List (ℕ × ScanStatus)
  sensorData : List SensorDataRec
  detections : List DetectedObject
  rawFiles : List (ℕ × String)

/-- processSensorTypeData dispatches on the sensor type, producing the stub
processed payload for the three known types and an error otherwise
(internal/application, `SensorFusionService.processSensorTypeData` with the
fusion package's `ProcessLidarData`/`ProcessMagneticData`/`ProcessAcousticData`
stubs inlined). -/
def processSensorTypeData (sensorType : String) (_ : List ℕ) : Except String Val :=
  if sensorType = "lidar" then
    .ok (.obj [("processed", .bool true), ("type", .str "lidar")])
  else if sensorType = "magnetic" then
    .ok (.obj [("processed", .bool true), ("type", .str "magnetic")])
  else if sensorType = "acoustic" then
    .ok (.obj [("processed", .bool true), ("type", .str "acoustic")])
  else .error "unsupported sensor type"

/-- SensorFusionService.ProcessSensorData: looks the scan up (error when
missing — the scan's status is not inspected), requires float latitude,
longitude and altitude and a present quality entry in the metadata, processes
the payload by sensor type, and appends the reading to the reading store
(internal/application, `SensorFusionService.ProcessSensorData`). -/
def SensorFusionService.ProcessSensorData (st : ServiceState) (scanID : ℕ)
    (sensorType : String) (data : List ℕ) (metadata : List (String × Val)) :
    Except String ServiceState :=
  match List.lookup scanID st.scans with
  | none => .error "scan not found"
  | some _ =>
    match List.lookup "latitude" metadata with
    | some (Val.num latitude) =>
      match List.lookup "longitude" metadata with
      | some (Val.num longitude) =>
        match List.lookup "altitude" metadata with
        | some (Val.num altitude) =>
          match List.lookup "quality" metadata with
          | some qualityIndicators =>
            match processSensorTypeData sensorType data with
            | .error e => .error e
            | .ok processedData =>
              .ok { st with
                sensorData := st.sensorData ++
                  [{ scanId := scanID, sensorType := sensorType,
                     latitude := latitude, longitude := longitude,
                     altitude := altitude, data := processedData,
                     qualityIndicators := qualityIndicators }] }
          | none => .error "metadata missing quality"
        | _ => .error "metadata missing altitude"
      | _ => .error "metadata missing longitude"
    | _ => .error "metadata missing latitude"

/-- readingsValue is the value `FindBySensorType` hands to the detector: the
scan's stored readings of the given type as an opaque slice (the detector
never inspects it; a slice is never the nil interface, even when empty)
(internal/infrastructure, `PostgresSensorDataRepository.FindBySensorType`,
as consumed by `SensorFusionService.FuseAndDetect`). -/
def readingsValue (st : ServiceState) (scanID : ℕ) (sensorType : String) : Val :=
  .list ((st.sensorData.filter
    (fun r => r.scanId == scanID && r.sensorType == sensorType)).map (fun r => r.data))

/-- SensorFusionService.FuseAndDetect: fetches the three per-type reading
sets, runs the fusion detector, converts each Detection into an unverified
DetectedObject and appends it to the detection store — with no check for an
already-stored detection at the same cell (internal/application,
`SensorFusionService.FuseAndDetect`). -/
def SensorFusionService.FuseAndDetect (st : ServiceState) (scanID : ℕ) :
    Except String (ServiceState × List DetectedObject) :=
  let lidarData := readingsValue st scanID "lidar"
  let magneticData := readingsValue st scanID "magnetic"
  let acousticData := readingsValue st scanID "acoustic"
  match Detector.FuseAndDetect NewDetector lidarData magneticData acousticData with
  | .error e => .error e
  | .ok detections =>
    let objs := detections.map (fun det =>
      { scanId := scanID, latitude := det.latitude, longitude := det.longitude,
        depth := det.depth, objectType := det.objectType,
        confidence := det.confidence, dangerLevel := det.dangerLevel,
        verificationStatus := VerificationStatus.unverified })
    .ok ({ st with detections := st.detections ++ objs }, objs)

/-- GeospatialService.SaveRawScanData: looks the scan up, rejects it when its
status is not in_progress, and otherwise stores the blob and returns its key
(internal/application, `GeospatialService.SaveRawScanData`; the object-store
write is modelled as an append of the key). -/
def GeospatialService.SaveRawScanData (st : ServiceState) (scanID : ℕ)
    (sensorType : String) : Except String (ServiceState × String) :=
  match List.lookup scanID st.scans with
  | none => .error "scan not found"
  | some status =>
    if status ≠ ScanStatus.inProgress then
      .error "cannot save data for inactive scan"
    else
      .ok ({ st with rawFiles := st.rawFiles ++ [(scanID, sensorType)] }, sensorType)

/-- Outcome of an HTTP handler: an early `http.Error` rejection with its
message, or the parameter value the handler passes on to the service query. -/
inductive HttpOutcome (α : Type) where
  | badRequest (msg : String) : HttpOutcome α
  | ok (a : α) : HttpOutcome α

/-- The whitelist of bucket widths accepted by the temporal-analysis handler
(internal/ports/api, `GetTemporalAnalysis`, `validIntervals`). -/
def validIntervals : List String :=
  ["1 minute", "5 minutes", "10 minutes", "15 minutes", "30 minutes", "1 hour", "1 day"]

/-- GetTemporalAnalysis handler, parameter phase: rejects an unparseable scan
id (`none`) and a missing sensor type, defaults an empty interval to
`5 minutes`, and rejects any interval outside the whitelist with
`Invalid interval`; on success the interval reaches the service query
(internal/ports/api, `GeospatialHandler.GetTemporalAnalysis`; the time-range
parameters always default on parse failure and are omitted). -/
def GetTemporalAnalysis (scanID : Option ℕ) (sensorType : String)
    (interval : String) : HttpOutcome String :=
  match scanID with
  | none => .badRequest "Invalid scan ID"
  | some _ =>
    if sensorType = "" then .badRequest "Sensor type is required"
    else
      let i := if interval = "" then "5 minutes" else interval
      if validIntervals.contains i then .ok i else .badRequest "Invalid interval"

/-- GetSpatialHeatmap handler, parameter phase: rejects an unparseable scan id
and a missing sensor type; the grid size silently falls back to the default
100 whenever the parameter is absent, unparseable or non-positive — there is
no rejection path for it (internal/ports/api,
`GeospatialHandler.GetSpatialHeatmap`). -/
def GetSpatialHeatmap (scanID : Option ℕ) (sensorType : String)
    (gridSizeStr : String) : HttpOutcome ℚ :=
  match scanID with
  | none => .badRequest "Invalid scan ID"
  | some _ =>
    if sensorType = "" then .badRequest "Sensor type is required"
    else
      let gridSize : ℚ :=
        if gridSizeStr = "" then 100
        else
          match parseFloat gridSizeStr with
          | some parsed => if 0 < parsed then parsed else 100
          | none => 100
      .ok gridSize

/-- Outcome of `handleBinaryMessage` on one frame: the frame is logged and
dropped without a reading (`dropped`, also used for the empty 0x02/0x03
branches), a Go runtime index-out-of-range panic occurs (`outOfRange`), or
the frame is decoded and handed to `ProcessSensorData` (`processed`). -/
inductive BinOutcome where
  | dropped : BinOutcome
  | outOfRange : BinOutcome
  | processed (scanId : List ℕ) (metadata : List (String × Val)) (payload : List ℕ) :
      BinOutcome

/-- Two's-complement reinterpretation of a Nat as a Go `int32` (the decoder
assembles `int32(b0)<<24 | int32(b1)<<16 | int32(b2)<<8 | int32(b3)`, which
wraps). -/
def toInt32 (n : ℕ) : ℤ :=
  if n % 4294967296 < 2147483648 then ((n % 4294967296 : ℕ) : ℤ)
  else ((n % 4294967296 : ℕ) : ℤ) - 4294967296

/-- Big-endian 32-bit group starting at byte `i` (used only under an explicit
length guard). -/
def be32 (data : List ℕ) (i : ℕ) : ℕ :=
  data.getD i 0 * 16777216 + data.getD (i + 1) 0 * 65536 +
    data.getD (i + 2) 0 * 256 + data.getD (i + 3) 0

/-- extractScanID: requires at least 24 bytes and returns bytes 8..23
(internal/ports/ws, `extractScanID`; `uuid.FromBytes` on an exactly-16-byte
slice cannot fail). -/
def extractScanID (data : List ℕ) : Except String (List ℕ) :=
  if data.length < 24 then .error "data too short to contain scan ID"
  else .ok ((data.drop 8).take 16)

/-- extractMetadata reads the fixed-offset metadata block at bytes 24..36
with no length guard; `none` models the Go index-out-of-range panic raised
when the buffer is shorter than 37 bytes (internal/ports/ws,
`extractMetadata`). On success it returns the metadata map and the data start
offset 40. -/
def extractMetadata (data : List ℕ) : Option (List (String × Val) × ℕ) :=
  if data.length < 37 then none
  else
    some
      ([("latitude", Val.num ((toInt32 (be32 data 24) : ℚ) / 1000000)),
        ("longitude", Val.num ((toInt32 (be32 data 28) : ℚ) / 1000000)),
        ("altitude", Val.num ((toInt32 (be32 data 32) : ℚ) / 100)),
        ("quality", Val.obj [("signalStrength", Val.int (data.getD 36 0 : ℤ))])],
      40)

/-- handleBinaryMessage: frames shorter than 8 bytes, frames whose first two
bytes are not 0xAA 0x55, unknown packet types, and 0x01 frames whose scan-id
extraction fails are logged and dropped; the empty 0x02/0x03 branches do
nothing; a 0x01 frame then has its metadata extracted (which panics below 37
bytes) and its payload sliced from offset 40 (which panics below 40 bytes)
(internal/ports/ws, `SensorHandler.handleBinaryMessage`). -/
def handleBinaryMessage (data : List ℕ) : BinOutcome :=
  if data.length < 8 then .dropped
  else if ¬(data.getD 0 0 = 170 ∧ data.getD 1 0 = 85) then .dropped
  else
    let packetType := data.getD 3 0
    if packetType = 1 then
      match extractScanID data with
      | .error _ => .dropped
      | .ok scanId =>
        match extractMetadata data with
        | none => .outOfRange
        | some md =>
          if data.length < md.2 then .outOfRange
          else .processed scanId md.1 (data.drop md.2)
    else if packetType = 2 then .dropped
    else if packetType = 3 then .dropped
    else .dropped

/-- The single Detection the fusion pipeline produces for every non-rejected
call: the grid's only key is the literal `sample_point`, which parses to
(0, 0); the fused branch always fires, giving confidence 0.75, below the
promotion threshold, so object type, danger level and depth take their
defaults. -/
def pipelineDetection : Detection :=
  { latitude := 0, longitude := 0, depth := 3/20, objectType := "unknown",
    confidence := 3/4, dangerLevel := 3 }

/-- The DetectedObject `SensorFusionService.FuseAndDetect` appends to the
detection store on every run for scan `scanID`. -/
def detectedOf (scanID : ℕ) : DetectedObject :=
  { scanId := scanID, latitude := 0, longitude := 0, depth := 3/20,
    objectType := "unknown", confidence := 3/4, dangerLevel := 3,
    verificationStatus := VerificationStatus.unverified }

theorem detect_singleton (d : Detector) (key : String) (cls : List (String × Val))
    (p : ℚ) (h : List.lookup "mine_probability" cls = some (Val.num p)) :
    detectSuspiciousRegions d [(key, cls)] =
      if d.confidenceThreshold ≤ p then
        [{ latitude := (parseGridKey key).1, longitude := (parseGridKey key).2
           confidence := p
           objectType :=
             match List.lookup "object_type" cls with
             | some (Val.str s) => s
             | _ => "unknown"
           dangerLevel :=
             match List.lookup "danger_level" cls with
             | some (Val.int n) => n
             | _ => 3
           depth :=
             match List.lookup "depth" cls with
             | some (Val.num q) => q
             | _ => 3/20 }]
      else [] := by
  by_cases hc : d.confidenceThreshold ≤ p
  · simp [detectSuspiciousRegions, h, hc]
  · simp [detectSuspiciousRegions, h, hc]

theorem pipeline_const (l m a : Val) :
    detectSuspiciousRegions NewDetector
      (applyBayesianNetwork (performKalmanFiltering (createSpatialGrid l m a))) =
    [pipelineDetection] := by
  have h1 : performKalmanFiltering (createSpatialGrid l m a) =
      [("sample_point",
        [("lidar_filtered", l), ("magnetic_filtered", m), ("acoustic_filtered", a),
          ("fused_lidar_magnetic", Val.obj [("lidar", l), ("magnetic", m)])])] := rfl
  have hm : mineProbabilityOf
      [("lidar_filtered", l), ("magnetic_filtered", m), ("acoustic_filtered", a),
        ("fused_lidar_magnetic", Val.obj [("lidar", l), ("magnetic", m)])] = 3/4 := rfl
  have h2 : applyBayesianNetwork (performKalmanFiltering (createSpatialGrid l m a)) =
      [("sample_point", [("mine_probability", Val.num (3/4))])] := by
    rw [h1]
    simp only [applyBayesianNetwork, List.map, applyBayesianPoint, hm]
    rw [if_neg (by norm_num : ¬((4:ℚ)/5 < 3/4))]
  rw [h2, detect_singleton NewDetector "sample_point" [("mine_probability", Val.num (3/4))] (3/4) rfl,
    if_pos (by norm_num [NewDetector] : NewDetector.confidenceThreshold ≤ (3:ℚ)/4)]
  rfl

theorem service_fuse (st : ServiceState) (scanID : ℕ) :
    SensorFusionService.FuseAndDetect st scanID =
      Except.ok ({ st with detections := st.detections ++ [detectedOf scanID] },
        [detectedOf scanID]) := by
  simp only [SensorFusionService.FuseAndDetect, readingsValue, Detector.FuseAndDetect]
  rw [pipeline_const]
  rfl


/-- C1: the claim says re-running FuseAndDetect over an unchanged set of
stored Readings produces the same set of Detections, with no duplicate open
Detection for the same cell because an existing unverified/confirmed
Detection is checked for before inserting. The code performs no such check:
for a scan with one stored lidar reading, the first run appends one
unverified DetectedObject for the cell, and re-running over the unchanged
readings appends an identical second one, so the store then holds two equal
open Detections for the same cell. -/
theorem c1_rerun_inserts_duplicate_detection :
    SensorFusionService.FuseAndDetect
      { scans := [(1, ScanStatus.inProgress)],
        sensorData := [{ scanId := 1, sensorType := "lidar", latitude := 0,
                         longitude := 0, altitude := 0, data := Val.null,
                         qualityIndicators := Val.null }],
        detections := [], rawFiles := [] } 1 =
      Except.ok
        ({ scans := [(1, ScanStatus.inProgress)],
           sensorData := [{ scanId := 1, sensorType := "lidar", latitude := 0,
                            longitude := 0, altitude := 0, data := Val.null,
                            qualityIndicators := Val.null }],
           detections := [detectedOf 1], rawFiles := [] }, [detectedOf 1]) ∧
    SensorFusionService.FuseAndDetect
      { scans := [(1, ScanStatus.inProgress)],
        sensorData := [{ scanId := 1, sensorType := "lidar", latitude := 0,
                         longitude := 0, altitude := 0, data := Val.null,
                         qualityIndicators := Val.null }],
        detections := [detectedOf 1], rawFiles := [] } 1 =
      Except.ok
        ({ scans := [(1, ScanStatus.inProgress)],
           sensorData := [{ scanId := 1, sensorType := "lidar", latitude := 0,
                            longitude := 0, altitude := 0, data := Val.null,
                            qualityIndicators := Val.null }],
           detections := [detectedOf 1, detectedOf 1], rawFiles := [] },
        [detectedOf 1]) ∧
    (detectedOf 1).verificationStatus = VerificationStatus.unverified :=
  ⟨service_fuse _ 1, service_fuse _ 1, rfl⟩

/-- C2: the claim says the fused estimate satisfies the inverse-variance
formulas, and that combining two equal-variance estimates yields the
arithmetic mean of the means. The code's `fuseLidarAndMagnetic` computes
nothing: it returns a map holding both inputs unchanged, so its result is
never a numeric estimate at all — in particular fusing the numeric estimates
1 and 3 does not yield their arithmetic mean 2. -/
theorem c2_fuseLidarAndMagnetic_is_stub :
    fuseLidarAndMagnetic (Val.num 2) (Val.num (11/5)) =
      Val.obj [("lidar", Val.num 2), ("magnetic", Val.num (11/5))] ∧
    (∀ q : ℚ, fuseLidarAndMagnetic (Val.num 2) (Val.num (11/5)) ≠ Val.num q) ∧
    fuseLidarAndMagnetic (Val.num 1) (Val.num 3) ≠ Val.num 2 :=
  ⟨rfl, fun _ h => Val.noConfusion h, fun h => Val.noConfusion h⟩

/-- C3: the claim says the combined mine probability is non-decreasing as
more sensor types report positive evidence, and is 0 with no evidence. The
code averages the positive probabilities, which is not monotone: a cell with
acoustic evidence alone classifies at 0.8, and adding positive lidar
evidence (0.6) drops the combination to 0.7. The degrade-to-0 part does hold
(`combineProbabilities` of all zeros is 0). -/
theorem c3_combineProbabilities_not_monotone :
    combineProbabilities [0, 0, 4/5] = 4/5 ∧
    combineProbabilities [3/5, 0, 4/5] = 7/10 ∧
    combineProbabilities [3/5, 0, 4/5] < combineProbabilities [0, 0, 4/5] ∧
    combineProbabilities [0, 0, 0] = 0 ∧
    applyBayesianNetwork [("c", [("acoustic_filtered", Val.null)])] =
      [("c", [("mine_probability", Val.num (4/5))])] ∧
    applyBayesianNetwork
        [("c", [("lidar_filtered", Val.null), ("acoustic_filtered", Val.null)])] =
      [("c", [("mine_probability", Val.num (7/10))])] := by
  have e1 : combineProbabilities [0, 0, 4/5] = 4/5 := by
    norm_num [combineProbabilities, List.filter]
  have e2 : combineProbabilities [(3:ℚ)/5, 0, 4/5] = 7/10 := by
    norm_num [combineProbabilities, List.filter]
  refine ⟨e1, e2, ?_, ?_, ?_, ?_⟩
  · rw [e1, e2]; norm_num
  · norm_num [combineProbabilities, List.filter]
  · have hm : mineProbabilityOf [("acoustic_filtered", Val.null)] =
        combineProbabilities [0, 0, 4/5] := rfl
    simp only [applyBayesianNetwork, List.map, applyBayesianPoint, hm, e1]
    rw [if_neg (by norm_num : ¬((4:ℚ)/5 < 4/5))]
  · have hm : mineProbabilityOf
        [("lidar_filtered", Val.null), ("acoustic_filtered", Val.null)] =
        combineProbabilities [3/5, 0, 4/5] := rfl
    simp only [applyBayesianNetwork, List.map, applyBayesianPoint, hm, e2]
    rw [if_neg (by norm_num : ¬((4:ℚ)/5 < 7/10))]

/-- C4: the Detection Emitter creates a Detection exactly when the cell's
mine probability is at or above the detector's confidence threshold
(`>=` semantics, so a probability exactly at the threshold does emit), and
the default threshold from `NewDetector` is 0.7; the emitted Detection
carries the probability as its confidence. -/
theorem c4_detection_threshold_ge_semantics :
    NewDetector.confidenceThreshold = 7/10 ∧
    ∀ (d : Detector) (key : String) (cls : List (String × Val)) (p : ℚ),
      List.lookup "mine_probability" cls = some (Val.num p) →
        ((d.confidenceThreshold ≤ p →
          ∃ det, detectSuspiciousRegions d [(key, cls)] = [det] ∧ det.confidence = p) ∧
         (p < d.confidenceThreshold → detectSuspiciousRegions d [(key, cls)] = [])) := by
  refine ⟨rfl, ?_⟩
  intro d key cls p h
  constructor
  · intro hp
    rw [detect_singleton d key cls p h, if_pos hp]
    exact ⟨_, rfl, rfl⟩
  · intro hp
    rw [detect_singleton d key cls p h, if_neg (not_le.mpr hp)]

/-- C4 witness: at the boundary, a cell whose probability is exactly the
default threshold 0.7 does produce a Detection with that confidence. -/
theorem c4_detection_threshold_witness :
    ∃ det, detectSuspiciousRegions NewDetector
        [("cell", [("mine_probability", Val.num (7/10))])] = [det] ∧
      det.confidence = 7/10 :=
  ((c4_detection_threshold_ge_semantics.2 NewDetector "cell"
      [("mine_probability", Val.num (7/10))] (7/10) rfl).1 (le_of_eq rfl))

/-- C5: object type and danger level are present in a classification exactly
when the mine probability strictly exceeds the promotion threshold 0.8, and
a Detection emitted from a classification without an assigned danger level
receives the defensive default danger level 3. -/
theorem c5_promotion_threshold_and_danger_default :
    (∀ gp, List.lookup "mine_probability" (applyBayesianPoint gp) =
      some (Val.num (mineProbabilityOf gp))) ∧
    (∀ gp, (List.lookup "object_type" (applyBayesianPoint gp)).isSome ↔
      4/5 < mineProbabilityOf gp) ∧
    (∀ gp, (List.lookup "danger_level" (applyBayesianPoint gp)).isSome ↔
      4/5 < mineProbabilityOf gp) ∧
    (∀ (key : String) (cls : List (String × Val)) (p : ℚ),
      List.lookup "mine_probability" cls = some (Val.num p) →
      NewDetector.confidenceThreshold ≤ p →
      List.lookup "danger_level" cls = none →
      ∃ det, detectSuspiciousRegions NewDetector [(key, cls)] = [det] ∧
        det.dangerLevel = 3) := by
  refine ⟨?_, ?_, ?_, ?_⟩
  · intro gp
    by_cases hc : (4:ℚ)/5 < mineProbabilityOf gp <;>
      simp [applyBayesianPoint, hc, List.lookup]
  · intro gp
    by_cases hc : (4:ℚ)/5 < mineProbabilityOf gp <;>
      simp [applyBayesianPoint, hc, List.lookup]
  · intro gp
    by_cases hc : (4:ℚ)/5 < mineProbabilityOf gp <;>
      simp [applyBayesianPoint, hc, List.lookup]
  · intro key cls p h hp hdl
    rw [detect_singleton NewDetector key cls p h, if_pos hp]
    refine ⟨_, rfl, ?_⟩
    simp [hdl]

/-- C5 witness: a classification at the default confidence threshold with no
assigned danger level yields a Detection with the default danger level 3. -/
theorem c5_danger_default_witness :
    ∃ det, detectSuspiciousRegions NewDetector
        [("cell2", [("mine_probability", Val.num (7/10))])] = [det] ∧
      det.dangerLevel = 3 :=
  c5_promotion_threshold_and_danger_default.2.2.2 "cell2"
    [("mine_probability", Val.num (7/10))] (7/10) rfl (le_of_eq rfl) rfl

/-- C6: the claim says binary-frame decoding is total — short buffers, bad
magic and unknown packet types are dropped, and no buffer index is ever
accessed out of range. The guards for short (< 8), bad-magic and
unknown-type frames do hold, but a type-0x01 frame of 24 bytes passes the
scan-id guard and then `extractMetadata` reads byte 24 with no length check
(a Go index-out-of-range panic), and a 39-byte frame panics slicing the
payload at offset 40. -/
theorem c6_decoder_out_of_range :
    handleBinaryMessage ([170, 85, 0, 1] ++ List.replicate 20 0) =
      BinOutcome.outOfRange ∧
    handleBinaryMessage ([170, 85, 0, 1] ++ List.replicate 35 0) =
      BinOutcome.outOfRange ∧
    handleBinaryMessage [1, 2, 3, 4, 5, 6, 7, 8] = BinOutcome.dropped ∧
    handleBinaryMessage [170, 85] = BinOutcome.dropped ∧
    handleBinaryMessage ([170, 85, 0, 9] ++ List.replicate 36 0) =
      BinOutcome.dropped :=
  ⟨rfl, rfl, rfl, rfl, rfl⟩

/-- C7 counterexample: ProcessSensorData accepts and stores a reading into a
scan whose status is `completed` — the claim says such an attempt is
rejected with a scan-not-active error rather than stored. Only the scan's
existence is checked. -/
theorem c7_processSensorData_accepts_completed_scan :
    SensorFusionService.ProcessSensorData
      { scans := [(1, ScanStatus.completed)], sensorData := [],
        detections := [], rawFiles := [] }
      1 "lidar" []
      [("latitude", Val.num 1), ("longitude", Val.num 2),
        ("altitude", Val.num 3), ("quality", Val.null)] =
    Except.ok
      { scans := [(1, ScanStatus.completed)],
        sensorData := [{ scanId := 1, sensorType := "lidar", latitude := 1,
                         longitude := 2, altitude := 3,
                         data := Val.obj [("processed", Val.bool true),
                                          ("type", Val.str "lidar")],
                         qualityIndicators := Val.null }],
        detections := [], rawFiles := [] } := rfl

/-- C7 amended: only the raw-data save path enforces the scan status —
SaveRawScanData rejects any existing scan whose status is not in_progress
with an inactive-scan error, while ProcessSensorData accepts and stores a
reading into any existing scan regardless of its status, whenever the
metadata fields and the sensor type are valid. -/
theorem c7_scan_status_gate_amended :
    (∀ (st : ServiceState) (id : ℕ) (ty : String) (s : ScanStatus),
      List.lookup id st.scans = some s → s ≠ ScanStatus.inProgress →
      GeospatialService.SaveRawScanData st id ty =
        Except.error "cannot save data for inactive scan") ∧
    (∀ (st : ServiceState) (id : ℕ) (ty : String) (data : List ℕ)
        (md : List (String × Val)) (s : ScanStatus) (lat lon alt : ℚ) (q : Val),
      List.lookup id st.scans = some s →
      List.lookup "latitude" md = some (Val.num lat) →
      List.lookup "longitude" md = some (Val.num lon) →
      List.lookup "altitude" md = some (Val.num alt) →
      List.lookup "quality" md = some q →
      ty = "lidar" ∨ ty = "magnetic" ∨ ty = "acoustic" →
      ∃ st2, SensorFusionService.ProcessSensorData st id ty data md = Except.ok st2 ∧
        st2.sensorData.length = st.sensorData.length + 1) := by
  constructor
  · intro st id ty s hlook hne
    simp only [GeospatialService.SaveRawScanData, hlook]
    rw [if_pos hne]
  · intro st id ty data md s lat lon alt q hscan hlat hlon halt hq hty
    simp only [SensorFusionService.ProcessSensorData, hscan, hlat, hlon, halt, hq]
    rcases hty with h | h | h <;> subst h <;>
      exact ⟨_, rfl, by simp⟩

/-- C7 witness: a completed scan is rejected by SaveRawScanData but accepted
by ProcessSensorData (which stores the reading). -/
theorem c7_scan_status_gate_witness :
    GeospatialService.SaveRawScanData
      { scans := [(2, ScanStatus.completed)], sensorData := [],
        detections := [], rawFiles := [] } 2 "lidar" =
      Except.error "cannot save data for inactive scan" ∧
    ∃ st2, SensorFusionService.ProcessSensorData
        { scans := [(2, ScanStatus.completed)], sensorData := [],
          detections := [], rawFiles := [] }
        2 "magnetic" []
        [("latitude", Val.num 0), ("longitude", Val.num 0),
          ("altitude", Val.num 0), ("quality", Val.null)] = Except.ok st2 ∧
      st2.sensorData.length = 0 + 1 :=
  ⟨c7_scan_status_gate_amended.1 _ 2 "lidar" ScanStatus.completed rfl
      (fun h => ScanStatus.noConfusion h),
    c7_scan_status_gate_amended.2 _ 2 "magnetic" [] _ ScanStatus.completed 0 0 0
      Val.null rfl rfl rfl rfl rfl (Or.inr (Or.inl rfl))⟩

/-- C8 counterexample: the spatial-heatmap aggregation given the unsupported
resolution string `7 minutes` does not fail — it silently substitutes the
default grid size 100 and proceeds, where the claim says both aggregation
operations reject unsupported parameters instead of defaulting. -/
theorem c8_heatmap_silently_defaults :
    GetSpatialHeatmap (some 1) "lidar" "7 minutes" = HttpOutcome.ok 100 := rfl

/-- C8 amended: only the time-series rollup validates its bucket width — any
non-empty interval outside the whitelist (in particular `7 minutes`) is
rejected with `Invalid interval` before any query — while the spatial
heatmap has no rejection path for its resolution: an unparseable or
non-positive grid size silently falls back to the default 100. -/
theorem c8_aggregation_validation_amended :
    (∀ (id : ℕ) (ty i : String), ty ≠ "" → i ≠ "" →
      validIntervals.contains i = false →
      GetTemporalAnalysis (some id) ty i = HttpOutcome.badRequest "Invalid interval") ∧
    (∀ (id : ℕ) (ty s : String), ty ≠ "" → parseFloat s = none →
      GetSpatialHeatmap (some id) ty s = HttpOutcome.ok 100) ∧
    (∀ (id : ℕ) (ty s : String) (q : ℚ), ty ≠ "" → s ≠ "" →
      parseFloat s = some q → q ≤ 0 →
      GetSpatialHeatmap (some id) ty s = HttpOutcome.ok 100) := by
  refine ⟨?_, ?_, ?_⟩
  · intro id ty i hty hi hcon
    simp only [GetTemporalAnalysis, if_neg hty, if_neg hi, hcon]
    rfl
  · intro id ty s hty hs
    by_cases he : s = ""
    · subst he
      simp only [GetSpatialHeatmap, if_neg hty]
      rfl
    · simp only [GetSpatialHeatmap, if_neg hty, if_neg he, hs]
  · intro id ty s q hty hs hq hle
    simp only [GetSpatialHeatmap, if_neg hty, if_neg hs, hq]
    rw [if_neg (not_lt.mpr hle)]

/-- C8 witness: the rollup rejects the bucket width `7 minutes` while the
heatmap, for the same unparseable string, proceeds with the default grid
size 100. -/
theorem c8_aggregation_validation_witness :
    GetTemporalAnalysis (some 3) "lidar" "7 minutes" =
      HttpOutcome.badRequest "Invalid interval" ∧
    GetSpatialHeatmap (some 3) "acoustic" "7 minutes" = HttpOutcome.ok 100 :=
  ⟨c8_aggregation_validation_amended.1 3 "lidar" "7 minutes" (by decide) (by decide)
      (by decide),
    c8_aggregation_validation_amended.2.1 3 "acoustic" "7 minutes" (by decide) rfl⟩

/-- C9 counterexample: when no sensor type contributed any data (all three
interface inputs nil), the detector's FuseAndDetect returns the hard error
`no sensor data provided` — the claim says fusion never returns a hard
failure for missing sensor evidence. -/
theorem c9_fuseAndDetect_all_nil_errors :
    Detector.FuseAndDetect NewDetector Val.null Val.null Val.null =
      Except.error "no sensor data provided" := rfl

/-- C9 amended: the detector's FuseAndDetect succeeds whenever at least one
of the three inputs is non-nil (absence of individual sensor types is not an
error), and the service-level FuseAndDetect always succeeds, because the
repository hands it slices, which are never the nil interface — only the
all-nil detector call, unreachable through the service, is rejected. -/
theorem c9_fusion_missing_sensors_amended :
    (∀ l m a : Val, (l ≠ Val.null ∨ m ≠ Val.null ∨ a ≠ Val.null) →
      ∃ ds, Detector.FuseAndDetect NewDetector l m a = Except.ok ds) ∧
    (∀ (st : ServiceState) (id : ℕ),
      ∃ r, SensorFusionService.FuseAndDetect st id = Except.ok r) := by
  constructor
  · intro l m a h
    cases l <;> cases m <;> cases a <;>
      first
        | exact ⟨_, rfl⟩
        | (rcases h with h | h | h <;> exact absurd rfl h)
  · intro st id
    exact ⟨_, service_fuse st id⟩

/-- C9 witness: a call with only lidar data (an empty slice) and nil for the
other two sensors succeeds. -/
theorem c9_fusion_missing_sensors_witness :
    ∃ ds, Detector.FuseAndDetect NewDetector (Val.list []) Val.null Val.null =
      Except.ok ds :=
  c9_fusion_missing_sensors_amended.1 (Val.list []) Val.null Val.null
    (Or.inl (fun h => Val.noConfusion h))

/-- C10: a grid key that does not split on `:` into exactly two parts, or
both of whose parts fail to parse as numbers, yields coordinates (0, 0); and
the complete detector pipeline, whose grid from createSpatialGrid has the
single key `sample_point`, emits for every input exactly one Detection at
latitude 0 and longitude 0. -/
theorem c10_parseGridKey_defaults_zero :
    (∀ key : String, (splitString key ':').length ≠ 2 → parseGridKey key = (0, 0)) ∧
    (∀ (key p q : String), splitString key ':' = [p, q] →
      parseFloat p = none → parseFloat q = none → parseGridKey key = (0, 0)) ∧
    (∀ l m a : Val,
      detectSuspiciousRegions NewDetector
        (applyBayesianNetwork (performKalmanFiltering (createSpatialGrid l m a))) =
      [{ latitude := 0, longitude := 0, depth := 3/20, objectType := "unknown",
         confidence := 3/4, dangerLevel := 3 }]) := by
  refine ⟨?_, ?_, ?_⟩
  · intro key h
    unfold parseGridKey
    split
    · rename_i p q heq
      exact absurd (by rw [heq]; rfl) h
    · rfl
  · intro key p q hk hp hq
    unfold parseGridKey
    split
    · rename_i p2 q2 heq
      rw [hk] at heq
      injection heq with h1 h2
      injection h2 with h2 h3
      subst h1
      subst h2
      rw [hp, hq]
      rfl
    · rename_i hne
      exact absurd hk (hne p q)
  · intro l m a
    exact pipeline_const l m a

/-- C10 witness: the literal grid key `sample_point` (no colon) parses to
(0, 0), as does a two-part key with two non-numeric parts. -/
theorem c10_parseGridKey_witness :
    parseGridKey "sample_point" = (0, 0) ∧ parseGridKey "x:y" = (0, 0) :=
  ⟨c10_parseGridKey_defaults_zero.1 "sample_point" (by decide),
    c10_parseGridKey_defaults_zero.2.1 "x:y" "x" "y" (by decide) rfl rfl⟩
